import Mathlib

/-
Verification of the bettercap wifi module (src/modules/hid/hid_sniff.go,
wifi part: WiFiModule, its command handlers, Configure, Start and Stop)
against its natural-language specification.

The Go code is shallowly embedded: each relevant handler or function body
is transcribed as an executable Lean definition.  External collaborators
(the device registry `Session.WiFi`, the gopacket decoder, pcap, the
`network` package helpers) appear as parameters or as minimal interface
models, exactly as the spec designates them external.  Go `uint64`
arithmetic is modelled as `Nat` addition reduced modulo 2^64.
-/

namespace BettercapWifi

/-- Go `uint64` addition (wraps at 2^64). -/
def add64 (a b : Nat) : Nat := (a + b) % 18446744073709551616

/-- A device-registry record, restricted to the attributes the embedded
code reads or writes: the cumulative `Received` and `Sent` byte counters
(`network.Station` fields mutated by `updateStats`).  The registry itself
is external; only this interface is modelled. -/
structure Station where
  received : Nat
  sent : Nat
deriving DecidableEq

/-- The device registry (`mod.Session.WiFi`): an association of hardware
addresses to records.  Keys are unique in the real registry; lookup and
in-place mutation through a pointer are modelled as `regGet`/`regUpdate`
on the first matching key. -/
abbrev Registry := List (String × Station)

/-- `mod.Session.WiFi.Get(addr)`: lookup, `none` when the address has no
record. -/
def regGet : Registry → String → Option Station
  | [], _ => none
  | (a, s) :: rest, addr => if a = addr then some s else regGet rest addr

/-- Mutation of the record returned by `Get` through its pointer: the
first record keyed `addr` is replaced by `f` of itself; when no record
exists nothing happens (in particular no record is created). -/
def regUpdate : Registry → String → (Station → Station) → Registry
  | [], _, _ => []
  | (a, s) :: rest, addr, f =>
    if a = addr then (a, f s) :: rest else (a, s) :: regUpdate rest addr f

/-- `layers.Dot11Type.MainType()`: management, control or data. -/
inductive Dot11MainType
  | management
  | control
  | data
deriving DecidableEq

/-- The fields of a parsed `layers.Dot11` frame that the embedded code
reads: the main type, the three addresses (Address1 = destination,
Address2 = source, Address3 = BSSID) and `ChecksumValid()`. -/
structure Dot11 where
  mainType : Dot11MainType
  address1 : String
  address2 : String
  address3 : String
  checksumValid : Bool
deriving DecidableEq

/-- A captured packet as the loop sees it: `len(packet.Data())` plus the
outcome of `packets.Dot11Parse` (`none` when the initial dot11 parsing /
layer validation fails). -/
structure Packet where
  dataLen : Nat
  dot11 : Option Dot11
deriving DecidableEq

/-- `WiFiModule.updateStats`: for data frames, add the packet's byte
length to the `Received` counter of the record keyed by Address1 and then
to the `Sent` counter of the record keyed by Address2; non-data frames
leave the registry untouched. -/
def updateStats (d : Dot11) (pkt : Packet) (reg : Registry) : Registry :=
  if d.mainType = Dot11MainType.data then
    let bytes := pkt.dataLen
    let reg1 := regUpdate reg d.address1
      (fun s => { s with received := add64 s.received bytes })
    regUpdate reg1 d.address2
      (fun s => { s with sent := add64 s.sent bytes })
  else reg

/-- The module state mutated by one iteration of the capture loop: the
device registry, the handshake-recorder artifact (an append-only frame
list) and the global traffic counter `Session.Queue` tracks. -/
structure LoopState where
  reg : Registry
  handshakes : List Packet
  trackedBytes : Nat
deriving DecidableEq

/-- Outcome of one iteration of the capture loop in `Start`: either the
`for` loop breaks, or it continues into the next iteration carrying the
(possibly) mutated state. -/
inductive LoopResult
  | exit
  | next (st : LoopState)
deriving DecidableEq

/-- One iteration of the capture loop body in `WiFiModule.Start`:

  * `!mod.Running()` breaks out of the loop;
  * a nil packet is skipped by `continue` before anything touches it;
  * otherwise `Session.Queue.TrackPacket` counts the bytes, then
    `packets.Dot11Parse` runs; a failed parse skips classification;
  * with `skipBroken` set and an invalid checksum the frame is discarded
    by `continue`;
  * otherwise the classification calls run (`discoverProbes`,
    `discoverAccessPoints`, `discoverClients`, `discoverHandshakes`,
    `updateInfo`, `updateStats`) — these live outside this file's source
    and are abstracted as an arbitrary state transformer `classify`. -/
def loopIteration (classify : Packet → Dot11 → LoopState → LoopState)
    (skipBroken running : Bool) (pkt : Option Packet) (st : LoopState) :
    LoopResult :=
  match running, pkt with
  | false, _ => LoopResult.exit
  | true, none => LoopResult.next st
  | true, some p =>
    let st2 := { st with trackedBytes := add64 st.trackedBytes p.dataLen }
    match p.dot11 with
    | none => LoopResult.next st2
    | some d =>
      match skipBroken && !d.checksumValid with
      | true => LoopResult.next st2
      | false => LoopResult.next (classify p d st2)

/-- A `wifi.recon.channel` command as it reaches the handler after the
CLI regex and `str.Comma`/`strconv.Atoi` (out-of-scope parsing): either
the literal `clear` or a list of channel numbers. -/
inductive ChannelCmd
  | clear
  | set (chans : List Nat)
deriving DecidableEq

/-- The channel-conversion loop of the `wifi.recon.channel` handler:
each channel goes through `network.Dot11Chan2Freq` (external, passed as
`c2f`); a channel it maps to 0 aborts the whole command with
`"%d is not a valid wifi channel."`; otherwise the frequencies accumulate
in order. -/
def chansToFreqs (c2f : Nat → Nat) : List Nat → Except String (List Nat)
  | [] => Except.ok []
  | ch :: rest =>
    if c2f ch = 0 then
      Except.error (toString ch ++ " is not a valid wifi channel.")
    else
      match chansToFreqs c2f rest with
      | Except.error e => Except.error e
      | Except.ok fs => Except.ok (c2f ch :: fs)

/-- The `wifi.recon.channel` handler up to the `mod.frequencies = freqs`
assignment: `clear` leaves the parsed list empty; otherwise the channels
are converted.  An empty parsed list falls back to
`network.GetSupportedFrequencies` (external, passed as `getSupported`
with its possible error).  The returned value is the new `mod.frequencies`;
an error leaves the field unassigned. -/
def reconChannelHandler (c2f : Nat → Nat)
    (getSupported : Except String (List Nat)) (cmd : ChannelCmd) :
    Except String (List Nat) :=
  let parsed : Except String (List Nat) :=
    match cmd with
    | ChannelCmd.clear => Except.ok []
    | ChannelCmd.set chans => chansToFreqs c2f chans
  match parsed with
  | Except.error e => Except.error e
  | Except.ok freqs =>
    if freqs = [] then getSupported
    else Except.ok freqs

/-- Effect of one `wifi.recon.channel` command on `mod.frequencies`: the
handler's result on success, the previous value when the handler returns
early with an error. -/
def applyChannelCmd (c2f : Nat → Nat) (getSupported : Except String (List Nat))
    (cmd : ChannelCmd) (freqs : List Nat) : List Nat :=
  match reconChannelHandler c2f getSupported cmd with
  | Except.ok f => f
  | Except.error _ => freqs

/-- Effect of a chronological sequence of `wifi.recon.channel` commands
on `mod.frequencies`. -/
def applyChannelCmds (c2f : Nat → Nat) (getSupported : Except String (List Nat))
    (cmds : List ChannelCmd) (freqs : List Nat) : List Nat :=
  match cmds with
  | [] => freqs
  | c :: rest => applyChannelCmds c2f getSupported rest
      (applyChannelCmd c2f getSupported c freqs)

/-- Modelled from the spec: the value a single accepted command gives the
Channel Set — "the most recently supplied non-empty channel list
converted to frequencies, or the interface's full supported-frequency set
if the most recent command supplied none ('clear')"; a command holding an
invalid channel number is rejected (`none`). -/
def cmdResult (c2f : Nat → Nat) (supported : List Nat) :
    ChannelCmd → Option (List Nat)
  | ChannelCmd.clear => some supported
  | ChannelCmd.set chans =>
    if chans.any (fun ch => c2f ch == 0) then none
    else if chans = [] then some supported
    else some (chans.map c2f)

/-- The value of the most recent accepted command of a chronological
command list, if any. -/
def lastAccepted (c2f : Nat → Nat) (supported : List Nat) :
    List ChannelCmd → Option (List Nat)
  | [] => none
  | c :: rest =>
    match lastAccepted c2f supported rest with
    | some v => some v
    | none => cmdResult c2f supported c

/-- Modelled from the spec: the active Channel Set after a sequence of
configuration commands — the most recent accepted command's set, or the
initial set when no command was accepted. -/
def specChannelSet (c2f : Nat → Nat) (supported : List Nat)
    (cmds : List ChannelCmd) (init : List Nat) : List Nat :=
  (lastAccepted c2f supported cmds).getD init

/-- Whether an `Except` is an error. -/
def exceptIsError : Except String (List Nat) → Bool
  | Except.error _ => true
  | Except.ok _ => false

/-- The scheduler-relevant fields of `WiFiModule` the filter handlers
touch: the access-point filter `mod.ap` (abstracted to its BSSID string),
the pinned channel `mod.stickChan` and the Channel Set
`mod.frequencies`. -/
structure HopState where
  ap : Option String
  stickChan : Nat
  frequencies : List Nat
deriving DecidableEq

/-- The `wifi.recon MAC` handler: look the BSSID up in the device
registry (external, passed as `lookup`, returning the station's channel);
when found, set `mod.ap` and pin `mod.stickChan` to the station's
channel; otherwise return `"Could not find station with BSSID %s"` and
change nothing. -/
def reconMacHandler (lookup : String → Option Nat) (bssid : String)
    (st : HopState) : HopState × Option String :=
  match lookup bssid with
  | some ch => ({ st with ap := some bssid, stickChan := ch }, none)
  | none => (st, some ("Could not find station with BSSID " ++ bssid))

/-- The `wifi.recon clear` handler: clear `mod.ap`, reset
`mod.stickChan`, assign `mod.frequencies` from
`network.GetSupportedFrequencies` (external; Go's multi-value return
assigns the slice even alongside an error, hence the pair), then send on
`mod.hopChanges` unconditionally — the handler never consults
`mod.Running()`.  Result: new state, whether the hop-change signal send
is performed, and the returned error. -/
def reconClearHandler (getSupported : List Nat × Option String)
    (running : Bool) (st : HopState) : HopState × Bool × Option String :=
  ({ ap := none, stickChan := 0, frequencies := getSupported.1 },
    true, getSupported.2)

/-- The signal behaviour of the `wifi.recon.channel` handler: after a
successful `mod.frequencies` assignment the send on `mod.hopChanges` is
guarded by `if mod.Running()`, so it is performed exactly when the module
runs; an error path performs no send.  Returns the new frequencies paired
with whether the send is performed. -/
def reconChannelHandlerSig (c2f : Nat → Nat)
    (getSupported : Except String (List Nat)) (running : Bool)
    (cmd : ChannelCmd) : Except String (List Nat × Bool) :=
  match reconChannelHandler c2f getSupported cmd with
  | Except.error e => Except.error e
  | Except.ok fs => Except.ok (fs, running)

/-- Whether a handler outcome performed the hop-change signal send. -/
def sigPerformed : Except String (List Nat × Bool) → Bool
  | Except.ok (_, b) => b
  | Except.error _ => false

/-- The observable operations of `WiFiModule.Stop`'s callback, in
program order. -/
inductive StopAction
  | waitWrites
  | sendSentinel
  | waitReads
  | closeHandle
deriving DecidableEq

/-- The trace of `WiFiModule.Stop`'s callback: `mod.writes.Wait()`, then
— only when `mod.pktSourceChanClosed` is still false — the injection of
the nil sentinel into `mod.pktSourceChan`, then `mod.reads.Wait()`, then
`mod.handle.Close()`.  `Stop` returns only after the whole trace ran. -/
def stopTrace (pktSourceChanClosed : Bool) : List StopAction :=
  [StopAction.waitWrites]
    ++ (if pktSourceChanClosed then [] else [StopAction.sendSentinel])
    ++ [StopAction.waitReads, StopAction.closeHandle]

/-- Outcome of one `ihandle.Activate()` call in `Configure`. -/
inductive ActivationOutcome
  | success
  | failure (msg : String)
deriving DecidableEq

/-- The pcap error string `Configure` compares activation errors
against. -/
def errIfaceNotUp : String := "Interface Not Up"

deriving instance DecidableEq for Except

/-- What the activation retry loop did: the result `Configure` sees, how
many `Activate()` attempts were performed, and whether
`network.ActivateInterface` was invoked to bring the interface up. -/
structure ActivationTrace where
  result : Except String Unit
  attempts : Nat
  broughtUp : Bool
deriving DecidableEq

/-- The live-hardware activation retry loop of `Configure`
(`for retry := 0; ; retry++`).  The per-iteration inactive-handle setup
(`NewInactiveHandle`, `SetRFMon`, `SetSnapLen`, `SetTimeout`) is fatal on
failure identically in every iteration and is orthogonal to the retry
policy, so it is abstracted to success here; `a0`/`a1` are the outcomes
of the first and (potential) second `Activate()` call and `bringUp` the
outcome of `network.ActivateInterface`.  Only a first-attempt failure
whose message equals `ErrIfaceNotUp` takes the bring-up-and-`continue`
path; every other failure — including any failure of the second attempt,
where `retry == 0` no longer holds — returns
`"error while activating handle: %s"`. -/
def configureActivate (a0 a1 : ActivationOutcome)
    (bringUp : Except String Unit) : ActivationTrace :=
  match a0 with
  | ActivationOutcome.success => ⟨Except.ok (), 1, false⟩
  | ActivationOutcome.failure msg =>
    if msg = errIfaceNotUp then
      match bringUp with
      | Except.error e => ⟨Except.error e, 1, true⟩
      | Except.ok _ =>
        match a1 with
        | ActivationOutcome.success => ⟨Except.ok (), 2, true⟩
        | ActivationOutcome.failure m2 =>
          ⟨Except.error ("error while activating handle: " ++ m2), 2, true⟩
    else ⟨Except.error ("error while activating handle: " ++ msg), 1, false⟩

/-- The module-lifecycle facts `Start` establishes: the running flag and
which background pieces were brought up (channel hopper goroutine,
station-pruner goroutine, the packet source channel feeding the capture
loop). -/
structure ModuleRunState where
  running : Bool
  hopperStarted : Bool
  prunerStarted : Bool
  pktSourceChanCreated : Bool
deriving DecidableEq

/-- The guard under which `Start` spawns `mod.channelHopper`:
`mod.channel == 0 && mod.source == ""` — no fixed channel and a live
(non-replay-file) source. -/
def startsChannelHopper (channel : Int) (source : String) : Bool :=
  channel == 0 && source == ""

/-- `WiFiModule.Start`: run `Configure` first; on error return that very
error with nothing started and the state untouched.  On success,
`SetRunning(true, ...)` marks the module running and the callback spawns
the channel hopper (under its guard), the station pruner, and creates the
packet source channel for the capture loop. -/
def startModule (configure : Except String Unit) (channel : Int)
    (source : String) (st : ModuleRunState) :
    Except String Unit × ModuleRunState :=
  match configure with
  | Except.error e => (Except.error e, st)
  | Except.ok _ =>
    (Except.ok (),
      { running := true,
        hopperStarted := startsChannelHopper channel source,
        prunerStarted := true,
        pktSourceChanCreated := true })

/-- Example registry lookup for concrete instances: one known access
point on channel 6. -/
def exampleApLookup : String → Option Nat :=
  fun b => if b = "de:ad:be:ef:00:01" then some 6 else none

theorem regGet_regUpdate (r : Registry) (addr a : String)
    (f : Station → Station) :
    regGet (regUpdate r addr f) a =
      if a = addr then (regGet r a).map f else regGet r a := by
  induction r with
  | nil => simp [regGet, regUpdate]
  | cons hd tl ih =>
    obtain ⟨b, s⟩ := hd
    simp only [regUpdate]
    by_cases hba : b = addr
    · subst hba
      by_cases hab : b = a
      · subst hab
        simp [regGet]
      · simp [regGet, hab, Ne.symm hab]
    · by_cases hab : b = a
      · have haddr : ¬a = addr := fun h => hba (hab.trans h)
        simp [regGet, hba, hab, haddr]
      · simp [regGet, hba, hab, Ne.symm hab, ih]

theorem chansToFreqs_eq (c2f : Nat → Nat) (chans : List Nat)
    (h : chans.any (fun ch => c2f ch == 0) = false) :
    chansToFreqs c2f chans = Except.ok (chans.map c2f) := by
  induction chans with
  | nil => rfl
  | cons ch rest ih =>
    simp only [List.any_cons, Bool.or_eq_false_iff] at h
    have h1 : c2f ch ≠ 0 := by simpa using h.1
    simp [chansToFreqs, h1, ih h.2]

theorem chansToFreqs_hasError (c2f : Nat → Nat) (chans : List Nat)
    (h : chans.any (fun ch => c2f ch == 0) = true) :
    exceptIsError (chansToFreqs c2f chans) = true := by
  induction chans with
  | nil => simp at h
  | cons ch rest ih =>
    simp only [List.any_cons, Bool.or_eq_true] at h
    by_cases h0 : c2f ch = 0
    · simp [chansToFreqs, h0, exceptIsError]
    · have hrest : rest.any (fun ch => c2f ch == 0) = true := by
        rcases h with h | h
        · exact absurd (by simpa using h) h0
        · exact h
      have ih2 := ih hrest
      simp only [chansToFreqs, if_neg h0]
      cases hh : chansToFreqs c2f rest with
      | error e => simp [exceptIsError]
      | ok fs => rw [hh] at ih2; simp [exceptIsError] at ih2

theorem reconChannelHandler_error_iff (c2f : Nat → Nat)
    (supported : List Nat) (chans : List Nat) :
    exceptIsError
        (reconChannelHandler c2f (Except.ok supported) (ChannelCmd.set chans))
      = chans.any (fun ch => c2f ch == 0) := by
  by_cases h : chans.any (fun ch => c2f ch == 0) = true
  · rw [h]
    have herr := chansToFreqs_hasError c2f chans h
    cases hh : chansToFreqs c2f chans with
    | ok fs => rw [hh] at herr; simp [exceptIsError] at herr
    | error e => simp [reconChannelHandler, hh, exceptIsError]
  · have hfalse : chans.any (fun ch => c2f ch == 0) = false := by
      simpa using h
    rw [hfalse]
    have hok := chansToFreqs_eq c2f chans hfalse
    simp only [reconChannelHandler, hok]
    by_cases hnil : chans.map c2f = [] <;> simp [hnil, exceptIsError]

theorem applyChannelCmd_eq_cmdResult (c2f : Nat → Nat) (supported : List Nat)
    (c : ChannelCmd) (freqs : List Nat) :
    applyChannelCmd c2f (Except.ok supported) c freqs =
      (cmdResult c2f supported c).getD freqs := by
  cases c with
  | clear => rfl
  | set chans =>
    by_cases h : chans.any (fun ch => c2f ch == 0) = true
    · have herr := chansToFreqs_hasError c2f chans h
      cases hh : chansToFreqs c2f chans with
      | ok fs => rw [hh] at herr; simp [exceptIsError] at herr
      | error e =>
        simp [applyChannelCmd, reconChannelHandler, hh, cmdResult, h]
    · have hfalse : chans.any (fun ch => c2f ch == 0) = false := by
        simpa using h
      have hok := chansToFreqs_eq c2f chans hfalse
      by_cases hnil : chans = []
      · subst hnil
        simp [applyChannelCmd, reconChannelHandler, cmdResult, chansToFreqs,
          hfalse]
      · have hmapnil : chans.map c2f ≠ [] := by simpa using hnil
        simp [applyChannelCmd, reconChannelHandler, hok, cmdResult, hfalse,
          hnil, hmapnil]

theorem lastAccepted_cons (c2f : Nat → Nat) (supported : List Nat)
    (c : ChannelCmd) (rest : List ChannelCmd) :
    lastAccepted c2f supported (c :: rest) =
      match lastAccepted c2f supported rest with
      | some v => some v
      | none => cmdResult c2f supported c := rfl

theorem applyChannelCmds_spec (c2f : Nat → Nat) (supported : List Nat)
    (cmds : List ChannelCmd) (init : List Nat) :
    applyChannelCmds c2f (Except.ok supported) cmds init =
      specChannelSet c2f supported cmds init := by
  induction cmds generalizing init with
  | nil => rfl
  | cons c rest ih =>
    show applyChannelCmds c2f (Except.ok supported) rest
        (applyChannelCmd c2f (Except.ok supported) c init) = _
    rw [ih, applyChannelCmd_eq_cmdResult]
    simp only [specChannelSet, lastAccepted_cons]
    cases h : lastAccepted c2f supported rest with
    | some v => simp
    | none => simp

/-- Claim C1: with integrity checking (`wifi.skip-broken`) enabled, a
frame that parses but fails the FCS check is discarded before any
classification: the iteration continues to the next frame and the
resulting state differs from the input state only in the global traffic
counter (which the code updates before the checksum check) — the device
registry and the handshake artifact are untouched, and no classifier
(`discover*`, `updateInfo`, `updateStats`) runs, whatever it would have
done. -/
theorem broken_frame_discarded
    (classify : Packet → Dot11 → LoopState → LoopState)
    (t : Dot11MainType) (a1 a2 a3 : String) (len : Nat) (st : LoopState) :
    loopIteration classify true true
      (some { dataLen := len,
              dot11 := some { mainType := t, address1 := a1, address2 := a2,
                              address3 := a3, checksumValid := false } }) st
      = LoopResult.next { st with trackedBytes := add64 st.trackedBytes len } :=
  rfl

/-- Claim C2: the `Stop` callback trace starts with the write-barrier
wait, injects the sentinel exactly when the packet channel is not already
closed, waits for the reads (the capture loop) afterwards, and closes the
capture handle exactly once, last — in particular `Stop` cannot return
before the write-barrier wait or before the single handle release. -/
theorem stop_ordering (closed : Bool) :
    (stopTrace closed).head? = some StopAction.waitWrites
      ∧ (stopTrace closed).getLast? = some StopAction.closeHandle
      ∧ (stopTrace closed).count StopAction.closeHandle = 1
      ∧ (stopTrace closed).count StopAction.waitWrites = 1
      ∧ ((StopAction.sendSentinel ∈ stopTrace closed) ↔ closed = false)
      ∧ (stopTrace closed).indexOf StopAction.waitWrites
          < (stopTrace closed).indexOf StopAction.waitReads
      ∧ (stopTrace closed).indexOf StopAction.waitReads
          < (stopTrace closed).indexOf StopAction.closeHandle
      ∧ (stopTrace false).indexOf StopAction.waitWrites
          < (stopTrace false).indexOf StopAction.sendSentinel
      ∧ (stopTrace false).indexOf StopAction.sendSentinel
          < (stopTrace false).indexOf StopAction.waitReads := by
  cases closed <;> decide

/-- Claim C3: over any sequence of `wifi.recon.channel` commands the
active Channel Set equals the most recently accepted command's set (the
supplied non-empty channel list converted to frequencies, or the full
supported set after `clear`), the handler errors exactly when the command
holds an invalid channel number, and such an erroring command leaves the
Channel Set unchanged (`cmdResult` is `none`, so `getD` keeps the old
frequencies). -/
theorem channel_set_follows_most_recent_command (c2f : Nat → Nat)
    (supported init freqs chans : List Nat) (cmds : List ChannelCmd) :
    applyChannelCmds c2f (Except.ok supported) cmds init
        = specChannelSet c2f supported cmds init
      ∧ exceptIsError (reconChannelHandler c2f (Except.ok supported)
            (ChannelCmd.set chans))
          = chans.any (fun ch => c2f ch == 0)
      ∧ applyChannelCmd c2f (Except.ok supported) (ChannelCmd.set chans) freqs
          = (cmdResult c2f supported (ChannelCmd.set chans)).getD freqs :=
  ⟨applyChannelCmds_spec c2f supported cmds init,
    reconChannelHandler_error_iff c2f supported chans,
    applyChannelCmd_eq_cmdResult c2f supported (ChannelCmd.set chans) freqs⟩

/-- Claim C4 counterexample: with the Channel Set configured to the
single frequency 2412 and an interface supporting 2412 and 2437, setting
the access-point filter and then clearing it leaves `mod.frequencies` as
the full supported set — not the configured Channel Set 2412, contrary to
the claim. -/
theorem filter_clear_discards_configured_set :
    ((reconClearHandler ([2412, 2437], none) true
        (reconMacHandler exampleApLookup "de:ad:be:ef:00:01"
          { ap := none, stickChan := 0, frequencies := [2412] }).1).1).frequencies
        = [2412, 2437]
      ∧ ((reconClearHandler ([2412, 2437], none) true
        (reconMacHandler exampleApLookup "de:ad:be:ef:00:01"
          { ap := none, stickChan := 0, frequencies := [2412] }).1).1).frequencies
        ≠ [2412] := by
  exact ⟨rfl, by decide⟩

/-- Claim C4 (amended): setting the access-point filter (found in the
registry with channel `ch`) and then clearing it unpins the scheduler
(`ap` cleared, `stickChan` reset to 0) and replaces the Channel Set with
the interface's freshly queried full supported-frequency set — which may
differ from the previously configured channel list. -/
theorem filter_set_then_clear (lookup : String → Option Nat) (bssid : String)
    (ch : Nat) (st : HopState) (supported : List Nat)
    (hfound : lookup bssid = some ch) :
    reconMacHandler lookup bssid st
        = ({ st with ap := some bssid, stickChan := ch }, none)
      ∧ (reconClearHandler (supported, none) true
            (reconMacHandler lookup bssid st).1).1
          = { ap := none, stickChan := 0, frequencies := supported } := by
  constructor
  · simp [reconMacHandler, hfound]
  · rfl

theorem filter_set_then_clear_witness :
    (reconClearHandler ([2412, 2437], none) true
        (reconMacHandler exampleApLookup "de:ad:be:ef:00:01"
          { ap := none, stickChan := 0, frequencies := [2412] }).1).1
      = { ap := none, stickChan := 0, frequencies := [2412, 2437] } :=
  (filter_set_then_clear exampleApLookup "de:ad:be:ef:00:01" 6
      { ap := none, stickChan := 0, frequencies := [2412] } [2412, 2437]
      (by decide)).2

/-- Claim C5 (divergence witness): the `wifi.recon clear` handler
performs the `hopChanges` send even when the module is not running — the
send is unconditional — while the `wifi.recon.channel` handler with the
module not running never performs it (its send is guarded by
`mod.Running()`).  On the unbuffered `hopChanges` channel the unguarded
send blocks the caller forever when the scheduler is not active. -/
theorem clear_filter_signal_not_guarded (getSupported : List Nat × Option String)
    (st : HopState) (c2f : Nat → Nat) (gS : Except String (List Nat))
    (cmd : ChannelCmd) :
    (reconClearHandler getSupported false st).2.1 = true
      ∧ sigPerformed (reconChannelHandlerSig c2f gS false cmd) = false := by
  constructor
  · rfl
  · cases h : reconChannelHandler c2f gS cmd <;>
      simp [reconChannelHandlerSig, sigPerformed, h]

/-- Claim C6: in `Configure`'s live-hardware activation loop, a first
activation failing with exactly `ErrIfaceNotUp` triggers one bring-up of
the interface and exactly one retry (two activation attempts in total);
the retry's outcome is final — success activates, any failure is returned
as an error.  A first failure with any other message, or a bring-up
failure, is fatal immediately with a single activation attempt and no
further retry. -/
theorem activation_retry_policy (msg m2 e : String) (a1 : ActivationOutcome)
    (bringUp : Except String Unit) (hmsg : msg ≠ errIfaceNotUp) :
    configureActivate ActivationOutcome.success a1 bringUp
        = ⟨Except.ok (), 1, false⟩
      ∧ configureActivate (ActivationOutcome.failure msg) a1 bringUp
          = ⟨Except.error ("error while activating handle: " ++ msg), 1, false⟩
      ∧ configureActivate (ActivationOutcome.failure errIfaceNotUp) a1
            (Except.error e)
          = ⟨Except.error e, 1, true⟩
      ∧ configureActivate (ActivationOutcome.failure errIfaceNotUp)
            ActivationOutcome.success (Except.ok ())
          = ⟨Except.ok (), 2, true⟩
      ∧ configureActivate (ActivationOutcome.failure errIfaceNotUp)
            (ActivationOutcome.failure m2) (Except.ok ())
          = ⟨Except.error ("error while activating handle: " ++ m2), 2, true⟩ := by
  refine ⟨rfl, ?_, ?_, by simp [configureActivate], by simp [configureActivate]⟩
  · simp [configureActivate, hmsg]
  · simp [configureActivate]

theorem activation_retry_policy_witness :
    configureActivate (ActivationOutcome.failure "no such device")
        ActivationOutcome.success (Except.ok ())
      = ⟨Except.error ("error while activating handle: " ++ "no such device"),
          1, false⟩ :=
  (activation_retry_policy "no such device" "x" "y" ActivationOutcome.success
      (Except.ok ()) (by decide)).2.1

theorem regGet_updateStats (d : Dot11) (pkt : Packet)
    (reg : Registry) (a : String) :
    regGet (updateStats d pkt reg) a =
      if d.mainType = Dot11MainType.data then
        (fun o => if a = d.address2 then
            Option.map (fun s => { s with sent := add64 s.sent pkt.dataLen }) o
          else o)
        ((fun o => if a = d.address1 then
            Option.map
              (fun s => { s with received := add64 s.received pkt.dataLen }) o
          else o)
         (regGet reg a))
      else regGet reg a := by
  by_cases h : d.mainType = Dot11MainType.data
  · by_cases h2 : a = d.address2 <;> by_cases h1 : a = d.address1
    · simp [updateStats, regGet_regUpdate, h, h1, h2, h1.symm.trans h2]
    · simp [updateStats, regGet_regUpdate, h, h1, h2,
        show ¬d.address2 = d.address1 from fun hh => h1 (h2.trans hh)]
    · simp [updateStats, regGet_regUpdate, h, h1, h2,
        show ¬d.address1 = d.address2 from fun hh => h2 (h1.trans hh)]
    · simp [updateStats, regGet_regUpdate, h, h1, h2]
  · simp [updateStats, h]

/-- Claim C7: for every frame reaching `updateStats`, the registry lookup
at any address `a` after the call equals the lookup before with the
packet's byte length added (modulo 2^64, as Go `uint64`) to `Received`
when `a` is the frame's Address1 and to `Sent` when `a` is its Address2 —
only for data frames, only through `Option.map` (so an absent record
stays absent and no record is created), and the domain of the registry is
preserved. -/
theorem updateStats_attributes_bytes (d : Dot11) (pkt : Packet)
    (reg : Registry) (a : String) :
    (regGet (updateStats d pkt reg) a =
      if d.mainType = Dot11MainType.data then
        (fun o => if a = d.address2 then
            Option.map (fun s => { s with sent := add64 s.sent pkt.dataLen }) o
          else o)
        ((fun o => if a = d.address1 then
            Option.map
              (fun s => { s with received := add64 s.received pkt.dataLen }) o
          else o)
         (regGet reg a))
      else regGet reg a)
      ∧ (regGet (updateStats d pkt reg) a).isSome = (regGet reg a).isSome := by
  refine ⟨regGet_updateStats d pkt reg a, ?_⟩
  rw [regGet_updateStats d pkt reg a]
  split_ifs <;> cases hr : regGet reg a <;> simp [hr]

/-- Claim C8: the nil sentinel is the shutdown signal, distinct from
source exhaustion: `Stop` clears the running flag before injecting it, and
with the running flag cleared the loop exits upon receiving anything —
the sentinel included; conversely a nil packet is never processed as a
frame — while still running it is skipped with the state completely
untouched (no tracking, no classification). -/
theorem nil_sentinel_shutdown
    (classify : Packet → Dot11 → LoopState → LoopState)
    (skipBroken : Bool) (pkt : Option Packet) (st : LoopState) :
    loopIteration classify skipBroken false pkt st = LoopResult.exit
      ∧ loopIteration classify skipBroken true none st = LoopResult.next st :=
  ⟨rfl, rfl⟩

/-- Claim C9: `Start` spawns the channel-hopping scheduler exactly when
the source-file parameter is empty (live hardware, not a replay file) and
the configured channel is 0 (no fixed channel). -/
theorem hopper_guard (channel : Int) (source : String) (st : ModuleRunState) :
    ((startModule (Except.ok ()) channel source st).2.hopperStarted = true)
      ↔ (source = "" ∧ channel = 0) := by
  simp only [startModule, startsChannelHopper]
  constructor
  · intro h
    have := Bool.and_eq_true _ _ ▸ h
    exact ⟨by simpa using this.2, by simpa using this.1⟩
  · intro h
    simp [h.1, h.2]

/-- Claim C10: when `Configure` fails, `Start` returns that very error
and nothing happens: the module is not marked running, neither the
channel hopper nor the pruner is spawned, no packet source channel is
created — the lifecycle state is exactly the input state. -/
theorem configure_error_aborts_start (e : String) (channel : Int)
    (source : String) (st : ModuleRunState) :
    startModule (Except.error e) channel source st = (Except.error e, st) :=
  rfl

end BettercapWifi
